import Mathlib

/-!
Shallow embedding of the aircraft-tracking ingestion pipeline of
`bdi_api` (files `s1/exercise.py`, `s4/exercise.py`): per-entry field
normalization, per-file parsing, the prepare (ingest) runs of the s1 and
s4 variants, the SQLite-backed s1 query endpoints, and the two download
endpoints.  JSON numbers are modelled as `Rat`; Python `None` / a missing
dict key (both produced by `dict.get`) as `Option.none`.
-/

/-- A JSON scalar as it appears in fields such as `alt_baro`, which the
source data carries either as a number or as a string (`"ground"`). -/
inductive JVal where
  | num (q : Rat)
  | str (s : String)
deriving DecidableEq

/-- One raw per-aircraft entry of a snapshot file, holding exactly the
fields read by `prepare_data` via `ac.get(...)` in both variants:
`hex`, `r`, `t`, `lat`, `lon`, `alt_baro`, `gs`, `seen_pos`, `emergency`.
A missing key and an explicit JSON `null` both come back from `.get` as
Python `None`, modelled as `none`. -/
structure Entry where
  hex : Option String
  r : Option String
  t : Option String
  lat : Option Rat
  lon : Option Rat
  alt_baro : Option JVal
  gs : Option Rat
  seen_pos : Option Rat
  emergency : Option String
deriving DecidableEq

/-- A row of the `aircraft` table: `{"icao": ..., "registration": ..., "type": ...}`. -/
structure AircraftRow where
  icao : String
  registration : Option String
  typ : Option String
deriving DecidableEq

/-- A row of the `positions` table:
`{"icao", "timestamp", "lat", "lon", "alt_baro", "gs", "emergency"}`.
In the s1 variant `alt_baro` is stored raw (it can be the string
`"ground"`); in the s4 variant it is pre-normalized to a number or null,
which is a special case of the same column type. -/
structure PositionRow where
  icao : String
  timestamp : Option Rat
  lat : Rat
  lon : Rat
  alt_baro : Option JVal
  gs : Option Rat
  emergency : Option String
deriving DecidableEq

/-- Python truthiness of `ac.get("hex")`: `None` and the empty string are
falsy, every other string is truthy (`if not icao: continue`). -/
def pyTruthyStr : Option String → Bool
  | none => false
  | some s => !s.isEmpty

/-- Python truthiness of the numeric `base_time = data.get("now")`:
`None` and `0.0` are falsy (`if (base_time and seen_pos is not None)`). -/
def pyTruthyRat : Option Rat → Bool
  | none => false
  | some q => q != 0

/-- `s1/exercise.py` lines 119-139: one loop iteration of `prepare_data`.
Entries whose `hex` is falsy contribute nothing; otherwise an aircraft
row is always appended, and a position row is appended iff `lat` and
`lon` are both non-`None`.  The stored timestamp is the raw
`ac.get("seen_pos")` value and `alt_baro` is stored unchanged. -/
def s1_normalize (ac : Entry) : Option AircraftRow × Option PositionRow :=
  if !pyTruthyStr ac.hex then (none, none)
  else
    let icao := ac.hex.getD ""
    let meta : AircraftRow := { icao := icao, registration := ac.r, typ := ac.t }
    match ac.lat, ac.lon with
    | some la, some lo =>
        (some meta,
         some { icao := icao, timestamp := ac.seen_pos, lat := la, lon := lo,
                alt_baro := ac.alt_baro, gs := ac.gs, emergency := ac.emergency })
    | _, _ => (some meta, none)

/-- `s4/exercise.py` line 166:
`timestamp = (base_time - seen_pos) if (base_time and seen_pos is not None) else base_time`. -/
def s4_timestamp (base_time seen_pos : Option Rat) : Option Rat :=
  if pyTruthyRat base_time && seen_pos.isSome then
    some (base_time.getD 0 - seen_pos.getD 0)
  else base_time

/-- `s4/exercise.py` lines 170-172: `alt_baro` normalization.
`if isinstance(alt_baro, str): alt_baro = 0 if alt_baro == "ground" else None`;
numbers and `None` pass through unchanged. -/
def s4_alt_norm : Option JVal → Option JVal
  | some (JVal.str s) => if s = "ground" then some (JVal.num 0) else none
  | x => x

/-- `s4/exercise.py` lines 148-182: one loop iteration of `prepare_data`,
given the snapshot's `base_time = data.get("now")`. -/
def s4_normalize (base_time : Option Rat) (ac : Entry) :
    Option AircraftRow × Option PositionRow :=
  if !pyTruthyStr ac.hex then (none, none)
  else
    let icao := ac.hex.getD ""
    let meta : AircraftRow := { icao := icao, registration := ac.r, typ := ac.t }
    match ac.lat, ac.lon with
    | some la, some lo =>
        (some meta,
         some { icao := icao, timestamp := s4_timestamp base_time ac.seen_pos,
                lat := la, lon := lo, alt_baro := s4_alt_norm ac.alt_baro,
                gs := ac.gs, emergency := ac.emergency })
    | _, _ => (some meta, none)

/-- Byte-wise (BINARY-collation) comparison of strings as SQLite orders
TEXT values, modelled code-point-lexicographically on the character
lists (equivalent to byte order for valid UTF-8). -/
def charListLe : List Char → List Char → Bool
  | [], _ => true
  | _ :: _, [] => false
  | a :: as, b :: bs => if a = b then charListLe as bs else decide (a < b)

/-- String comparison used for SQLite `ORDER BY` / `MAX` on TEXT. -/
def strLe (a b : String) : Bool := charListLe a.data b.data

/-- A value stored in an SQLite column: `NULL`, a number, or TEXT.
(The pipeline stores no BLOBs.) -/
inductive SVal where
  | null
  | num (q : Rat)
  | text (s : String)
deriving DecidableEq

/-- SQLite's cross-type ordering on storage classes:
`NULL < numeric < TEXT`, numbers by value, texts byte-wise. -/
def svalLe : SVal → SVal → Bool
  | SVal.null, _ => true
  | SVal.num _, SVal.null => false
  | SVal.num a, SVal.num b => decide (a ≤ b)
  | SVal.num _, SVal.text _ => true
  | SVal.text _, SVal.null => false
  | SVal.text _, SVal.num _ => false
  | SVal.text a, SVal.text b => strLe a b

/-- Binary max of SQLite's `MAX` aggregate: `NULL` operands are ignored. -/
def svalMax2 : SVal → SVal → SVal
  | a, SVal.null => a
  | SVal.null, b => b
  | a, b => if svalLe a b then b else a

/-- SQLite `MAX(column)`: greatest non-`NULL` value under `svalLe`,
`NULL` when the column has no non-`NULL` value (or no row at all). -/
def sqliteMax : List SVal → SVal
  | [] => SVal.null
  | v :: rest => svalMax2 v (sqliteMax rest)

/-- SQLite boolean coercion of a TEXT value (as in `CASE WHEN x THEN`):
the longest numeric prefix is parsed (optional spaces, optional sign,
integer digits, optional `.` and fraction digits; exponent notation is
not modelled — no value in this pipeline uses it) and the result is the
parsed number, `0` when no digits are present (e.g. `"none"` -> `0`). -/
def sqliteTextToRat (s : String) : Rat :=
  let cs := s.data.dropWhile (fun c => c = ' ')
  let neg : Bool := match cs with
    | '-' :: _ => true
    | _ => false
  let cs := match cs with
    | '-' :: rest => rest
    | '+' :: rest => rest
    | _ => cs
  let intPart := cs.takeWhile Char.isDigit
  let rest := cs.dropWhile Char.isDigit
  let fracPart := match rest with
    | '.' :: r => r.takeWhile Char.isDigit
    | _ => []
  let iv : Nat := intPart.foldl (fun n c => n * 10 + (c.toNat - 48)) 0
  let fv : Nat := fracPart.foldl (fun n c => n * 10 + (c.toNat - 48)) 0
  let mag : Nat := iv * 10 ^ fracPart.length + fv
  mkRat (if neg then -(mag : Int) else (mag : Int)) (10 ^ fracPart.length)

/-- SQLite truthiness of a stored value, as evaluated by
`CASE WHEN emergency THEN 1 ELSE 0 END`: `NULL` is not true, a number is
true iff non-zero, TEXT is coerced to a number first ("none" -> 0 -> false). -/
def svalTruthy : SVal → Bool
  | SVal.null => false
  | SVal.num q => q != 0
  | SVal.text s => sqliteTextToRat s != 0

/-- Python `bool()` applied to a value coming back from SQLite
(`bool(row[2])` in `get_aircraft_statistics`): `None` and `0` are falsy. -/
def pyBoolSval : SVal → Bool
  | SVal.null => false
  | SVal.num q => q != 0
  | SVal.text s => !s.isEmpty

/-- The `alt_baro` column of a stored position as an SQLite value. -/
def altColumn (a : Option JVal) : SVal :=
  match a with
  | none => SVal.null
  | some (JVal.num q) => SVal.num q
  | some (JVal.str s) => SVal.text s

/-- A numeric-or-null column (`gs`, `timestamp`) as an SQLite value. -/
def numColumn (a : Option Rat) : SVal :=
  match a with
  | none => SVal.null
  | some q => SVal.num q

/-- The `emergency` column (string-or-null) as an SQLite value. -/
def emergencyColumn (a : Option String) : SVal :=
  match a with
  | none => SVal.null
  | some s => SVal.text s

/-- `pandas.DataFrame.drop_duplicates(subset="icao", keep="last")`
(`s1/exercise.py` line 142, `s4/exercise.py` line 187): a row is kept iff
no later row has the same `icao`; the kept rows stay in order. -/
def dropDupLast : List AircraftRow → List AircraftRow
  | [] => []
  | x :: xs =>
      if xs.any (fun y => y.icao = x.icao) then dropDupLast xs
      else x :: dropDupLast xs

/-- The prepared SQLite database `aircraft.db`: the two tables written by
`to_sql(..., if_exists="replace")`. -/
structure DB where
  aircraft : List AircraftRow
  positions : List PositionRow
deriving DecidableEq

/-- The statistics response of `GET /api/s1/aircraft/{icao}/stats`. -/
structure Stats where
  max_altitude_baro : SVal
  max_ground_speed : SVal
  had_emergency : Bool
deriving DecidableEq

/-- `s1/exercise.py` lines 236-267, `get_aircraft_statistics`: when the
database file does not exist, the all-null/false shape; otherwise the SQL
`SELECT MAX(alt_baro), MAX(gs), MAX(CASE WHEN emergency THEN 1 ELSE 0 END)
FROM positions WHERE icao = ?`, each `MAX` wrapped exactly as the code
wraps it (`bool(row[2])` on the emergency aggregate). -/
def get_aircraft_statistics (db : Option DB) (icao : String) : Stats :=
  match db with
  | none => { max_altitude_baro := SVal.null, max_ground_speed := SVal.null,
              had_emergency := false }
  | some db =>
      let rows := db.positions.filter (fun r => r.icao = icao)
      { max_altitude_baro := sqliteMax (rows.map (fun r => altColumn r.alt_baro)),
        max_ground_speed := sqliteMax (rows.map (fun r => numColumn r.gs)),
        had_emergency := pyBoolSval (sqliteMax (rows.map (fun r =>
          SVal.num (if svalTruthy (emergencyColumn r.emergency) then 1 else 0)))) }

/-- `s1/exercise.py` lines 162-187, `list_aircraft`: empty when the
database file does not exist; otherwise
`SELECT icao, registration, type FROM aircraft ORDER BY icao ASC LIMIT ? OFFSET ?`
with `OFFSET page * num_results`. -/
def list_aircraft (db : Option DB) (num_results page : Nat) : List AircraftRow :=
  match db with
  | none => []
  | some db =>
      (((db.aircraft.mergeSort (fun a b => strLe a.icao b.icao)).drop
          (page * num_results)).take num_results)

/-- One element of the response of `GET /api/s1/aircraft/{icao}/positions`:
the selected columns with `emergency` coerced by Python `bool(...)`. -/
structure PositionOut where
  timestamp : Option Rat
  lat : Rat
  lon : Rat
  alt_baro : Option JVal
  gs : Option Rat
  emergency : Bool
deriving DecidableEq

/-- `s1/exercise.py` lines 192-229, `get_aircraft_position`: empty when
the database file does not exist; otherwise
`SELECT ... FROM positions WHERE icao = ? ORDER BY timestamp ASC LIMIT ? OFFSET ?`
(`NULL` timestamps sort first), each row shaped with `bool(r[5])`. -/
def get_aircraft_position (db : Option DB) (icao : String)
    (num_results page : Nat) : List PositionOut :=
  match db with
  | none => []
  | some db =>
      let rows := db.positions.filter (fun r => r.icao = icao)
      let sorted := rows.mergeSort (fun a b =>
        svalLe (numColumn a.timestamp) (numColumn b.timestamp))
      ((sorted.drop (page * num_results)).take num_results).map (fun r =>
        { timestamp := r.timestamp, lat := r.lat, lon := r.lon,
          alt_baro := r.alt_baro, gs := r.gs,
          emergency := pyBoolSval (emergencyColumn r.emergency) })

/-- The JSON structure decoded from one snapshot file, restricted to the
two top-level keys the pipeline reads: `now` (the capture epoch time) and
`aircraft` (the entry list; `none` models a decoded object without an
`"aircraft"` key).  Snapshot files decode to JSON objects. -/
structure Decoded where
  now : Option Rat
  aircraft : Option (List Entry)
deriving DecidableEq

/-- The raw bytes of one input file, classified by how the two decoding
attempts of `prepare_data` fare on them: `gz d?` means the bytes are
valid gzip whose decompressed text decodes to `d` (or to nothing when
`d? = none`); `plain d?` means gzip decoding fails with
`OSError`/`BadGzipFile` and the raw bytes themselves decode to `d`
(or to nothing). -/
inductive RawFile where
  | gz (d : Option Decoded)
  | plain (d : Option Decoded)
deriving DecidableEq

/-- The per-file decode step shared by `s1/exercise.py` lines 104-114 and
`s4/exercise.py` lines 124-138: try gzip first, fall back to plain JSON
only on `OSError`/`BadGzipFile`.  A JSON decode error is fatal in both
variants: in s1 it escapes the `try` (only gzip errors are caught), in s4
the outer `except Exception` explicitly re-raises ("Bubble up the error
so the endpoint returns a 500"). -/
def parseFile : RawFile → Except Unit Decoded
  | RawFile.gz (some d) => Except.ok d
  | RawFile.gz none => Except.error ()
  | RawFile.plain (some d) => Except.ok d
  | RawFile.plain none => Except.error ()

/-- The s1 per-entry loop over one file's `data["aircraft"]`, collecting
the appended `aircraft_rows` and `position_rows` in entry order. -/
def s1_process (entries : List Entry) : List AircraftRow × List PositionRow :=
  (entries.filterMap (fun e => (s1_normalize e).1),
   entries.filterMap (fun e => (s1_normalize e).2))

/-- The s4 per-entry loop over one file's `data.get("aircraft", [])`,
with the file's `base_time = data.get("now")`. -/
def s4_process (base_time : Option Rat) (entries : List Entry) :
    List AircraftRow × List PositionRow :=
  (entries.filterMap (fun e => (s4_normalize base_time e).1),
   entries.filterMap (fun e => (s4_normalize base_time e).2))

/-- s1 per-file record extraction (applied only to files that pass the
structural check, i.e. whose `aircraft` key is present). -/
def s1_procFile (d : Decoded) : List AircraftRow × List PositionRow :=
  s1_process (d.aircraft.getD [])

/-- s4 per-file record extraction. -/
def s4_procFile (d : Decoded) : List AircraftRow × List PositionRow :=
  s4_process d.now (d.aircraft.getD [])

/-- The file loop of `prepare_data` (same shape in both variants): files
are consumed in order, a decode failure aborts the whole run, a decoded
structure without an `"aircraft"` key is skipped
(`if not data or "aircraft" not in data: continue` in s1,
`if not isinstance(data, dict) or "aircraft" not in data: continue` in s4),
and the surviving files' rows are accumulated in order. -/
def prepLoop (procFile : Decoded → List AircraftRow × List PositionRow) :
    List RawFile → List AircraftRow × List PositionRow →
    Except Unit (List AircraftRow × List PositionRow)
  | [], acc => Except.ok acc
  | f :: rest, acc =>
      match parseFile f with
      | Except.error e => Except.error e
      | Except.ok d =>
          match d.aircraft with
          | none => prepLoop procFile rest acc
          | some _ =>
              let r := procFile d
              prepLoop procFile rest (acc.1 ++ r.1, acc.2 ++ r.2)

/-- The full s1 collection pass over the input files, in processing order
(`sorted(os.listdir(raw_dir))`). -/
def s1_run (files : List RawFile) :
    Except Unit (List AircraftRow × List PositionRow) :=
  prepLoop s1_procFile files ([], [])

/-- The full s4 collection pass over the S3 objects, in listing order. -/
def s4_run (files : List RawFile) :
    Except Unit (List AircraftRow × List PositionRow) :=
  prepLoop s4_procFile files ([], [])

/-- `s1/exercise.py` lines 75-158, `prepare_data` as a transformer of the
prepared store (`Option DB`, `none` = no `aircraft.db` file).  The
prepared directory is wiped up front (`shutil.rmtree`), so the prior
store contents are discarded unconditionally; on a decode failure the
exception escapes before `to_sql` runs and no database file exists; on
success the deduplicated aircraft table and the position table are
written with `if_exists="replace"`. -/
def s1_prepare_data (files : List RawFile) (prior : Option DB) : Option DB :=
  match s1_run files with
  | Except.error _ => none
  | Except.ok (a, p) => some { aircraft := dropDupLast a, positions := p }

/-- `s4/exercise.py` lines 77-197, `prepare_data`, same store-transformer
shape as the s1 variant but with the s4 normalization. -/
def s4_prepare_data (files : List RawFile) (prior : Option DB) : Option DB :=
  match s4_run files with
  | Except.error _ => none
  | Except.ok (a, p) => some { aircraft := dropDupLast a, positions := p }

/-- Zero-padded two-digit hour, Python `f"{hour:02d}"`. -/
def pad2 (h : Nat) : String :=
  if h < 10 then "0" ++ toString h else toString h

/-- The source file names generated by both download endpoints
(`s1/exercise.py` line 56, `s4/exercise.py` line 45):
`[f"{hour:02d}0000Z.json.gz" for hour in range(24)]`. -/
def filenames : List String :=
  (List.range 24).map (fun h => pad2 h ++ "0000Z.json.gz")

/-- `s1/exercise.py` lines 30-68, `download_data`: every name of
`filenames` is requested in order and every successful (HTTP 200)
response is stored; the `file_limit` parameter is accepted but never
read in the loop.  `resp name = some c` models a 200 response with body
`c`, `none` a non-success status (the file is skipped). -/
def s1_download_data {α : Type} (file_limit : Int)
    (resp : String → Option α) : List (String × α) :=
  filenames.filterMap (fun fn => (resp fn).map (fun c => (fn, c)))

/-- The download loop of `s4/exercise.py` lines 47-67: stop as soon as
`count >= file_limit`, where `count` counts only successful stores. -/
def s4_go {α : Type} (file_limit : Int) (resp : String → Option α) :
    List String → Int → List (String × α)
  | [], _ => []
  | fn :: rest, count =>
      if file_limit ≤ count then []
      else
        match resp fn with
        | some c => (fn, c) :: s4_go file_limit resp rest (count + 1)
        | none => s4_go file_limit resp rest count

/-- `s4/exercise.py` lines 29-69, `download_data`: the names are tried in
ascending hour order and at most `file_limit` successful fetches are
stored to S3. -/
def s4_download_data {α : Type} (file_limit : Int)
    (resp : String → Option α) : List (String × α) :=
  s4_go file_limit resp filenames 0

/-- Concrete entry mirroring the airborne aircraft of the repository's
test data (`tests/s4/test_s4.py`, `MOCK_AIRCRAFT_DATA`), with integral
coordinates. -/
def exEntryA : Entry :=
  { hex := some "06a0af", r := some "EC-MTI", t := some "A320",
    lat := some 41, lon := some 2, alt_baro := some (JVal.num 3200),
    gs := some 180, seen_pos := some 1, emergency := none }

/-- Concrete entry mirroring the on-ground aircraft of the repository's
test data: `alt_baro = "ground"`, `emergency = "none"`. -/
def exEntryB : Entry :=
  { hex := some "aabbcc", r := some "N12345", t := some "B737",
    lat := some 40, lon := some 3, alt_baro := some (JVal.str "ground"),
    gs := some 0, seen_pos := some 1, emergency := some "none" }

/-- One well-formed gzipped snapshot file holding the two test entries,
with `now = 1698796800`. -/
def exFile : RawFile :=
  RawFile.gz (some { now := some 1698796800, aircraft := some [exEntryA, exEntryB] })

/-- C6: for every entry with a usable (truthy) identifier, both
normalizers always produce the metadata record (missing registration and
type degrade to null), and produce a position record iff both `lat` and
`lon` are present and non-null. -/
theorem c6_position_iff_latlon (e : Entry) (bt : Option Rat) (ic : String)
    (hhex : e.hex = some ic) (hne : ic ≠ "") :
    (s1_normalize e).1 = some { icao := ic, registration := e.r, typ := e.t } ∧
    ((s1_normalize e).2 ≠ none ↔ e.lat ≠ none ∧ e.lon ≠ none) ∧
    (s4_normalize bt e).1 = some { icao := ic, registration := e.r, typ := e.t } ∧
    ((s4_normalize bt e).2 ≠ none ↔ e.lat ≠ none ∧ e.lon ≠ none) := by
  have hie : ic.isEmpty = false := by
    rw [Bool.eq_false_iff]
    intro h
    exact hne ((String.isEmpty_iff ic).mp h)
  rcases hla : e.lat with _ | la <;> rcases hlo : e.lon with _ | lo <;>
    simp [s1_normalize, s4_normalize, pyTruthyStr, hhex, hie, hla, hlo]

/-- Witness for C6 at the concrete test entry `exEntryA`. -/
theorem c6_position_iff_latlon_witness :
    (s1_normalize exEntryA).1 =
      some { icao := "06a0af", registration := some "EC-MTI", typ := some "A320" } ∧
    ((s1_normalize exEntryA).2 ≠ none ↔
      exEntryA.lat ≠ none ∧ exEntryA.lon ≠ none) ∧
    (s4_normalize (some 1698796800) exEntryA).1 =
      some { icao := "06a0af", registration := some "EC-MTI", typ := some "A320" } ∧
    ((s4_normalize (some 1698796800) exEntryA).2 ≠ none ↔
      exEntryA.lat ≠ none ∧ exEntryA.lon ≠ none) :=
  c6_position_iff_latlon exEntryA (some 1698796800) "06a0af" rfl (by decide)

/-- C10: an entry whose `hex` field is present but equal to the empty
string is treated exactly like one with a missing identifier — the
`if not icao: continue` check in both variants tests Python falsiness,
so neither a metadata nor a position record is produced. -/
theorem c10_falsy_hex_skipped (e : Entry) (bt : Option Rat)
    (hhex : e.hex = some "") :
    s1_normalize e = (none, none) ∧
    s4_normalize bt e = (none, none) ∧
    s1_normalize e = s1_normalize { e with hex := none } ∧
    s4_normalize bt e = s4_normalize bt { e with hex := none } := by
  have h0 : pyTruthyStr (some "") = false := by decide
  have h1 : pyTruthyStr none = false := rfl
  refine ⟨?_, ?_, ?_, ?_⟩ <;>
    simp [s1_normalize, s4_normalize, hhex, h0, h1]

/-- Witness for C10 at a concrete entry with `hex = ""` and full
position data. -/
theorem c10_falsy_hex_skipped_witness :
    s1_normalize { exEntryA with hex := some "" } = (none, none) ∧
    s4_normalize (some 1698796800) { exEntryA with hex := some "" } = (none, none) ∧
    s1_normalize { exEntryA with hex := some "" } =
      s1_normalize { exEntryA with hex := none } ∧
    s4_normalize (some 1698796800) { exEntryA with hex := some "" } =
      s4_normalize (some 1698796800) { exEntryA with hex := none } :=
  c10_falsy_hex_skipped { exEntryA with hex := some "" } (some 1698796800) rfl

/-- C1 (counterexample): the claim fails on the s1 variant.  Preparing
the test snapshot (base time `1698796800` present, `seen_pos = 1` present
on both entries) stores `timestamp = 1` — the raw `seen_pos` offset —
for both positions, not `base_time - offset = 1698796799`. -/
theorem c1_counterexample :
    ((s1_prepare_data [exFile] none).map
        (fun db => db.positions.map PositionRow.timestamp)) =
      some [some 1, some 1] ∧
    ¬ ((1698796800 : Rat) - 1 = 1) := by
  constructor
  · rfl
  · norm_num

/-- C1 as amended: in the s4 variant the stored position timestamp is
`s4_timestamp base_time seen_pos`, which equals `base_time - seen_pos`
when `base_time` is truthy (non-null and non-zero) and `seen_pos` is
non-null, and falls back to `base_time` otherwise (null when `base_time`
is null); in the s1 variant the stored position timestamp is the raw
`seen_pos` value itself, with `base_time` never consulted. -/
theorem c1_timestamp_amended (e : Entry) (bt : Option Rat) (ic : String)
    (la lo : Rat) (hhex : e.hex = some ic) (hne : ic ≠ "")
    (hla : e.lat = some la) (hlo : e.lon = some lo) :
    ((s4_normalize bt e).2.map PositionRow.timestamp) =
      some (s4_timestamp bt e.seen_pos) ∧
    ((s1_normalize e).2.map PositionRow.timestamp) = some e.seen_pos ∧
    (∀ b sp : Rat, b ≠ 0 → s4_timestamp (some b) (some sp) = some (b - sp)) ∧
    (∀ sp : Option Rat, s4_timestamp none sp = none) ∧
    (∀ sp : Option Rat, s4_timestamp (some 0) sp = some 0) ∧
    (∀ b : Option Rat, s4_timestamp b none = b) := by
  have hie : ic.isEmpty = false := by
    rw [Bool.eq_false_iff]
    intro h
    exact hne ((String.isEmpty_iff ic).mp h)
  refine ⟨?_, ?_, ?_, ?_, ?_, ?_⟩
  · simp [s4_normalize, pyTruthyStr, hhex, hie, hla, hlo]
  · simp [s1_normalize, pyTruthyStr, hhex, hie, hla, hlo]
  · intro b sp hb
    simp [s4_timestamp, pyTruthyRat, hb]
  · intro sp
    simp [s4_timestamp, pyTruthyRat]
  · intro sp
    simp [s4_timestamp, pyTruthyRat]
  · intro b
    simp [s4_timestamp]

/-- Witness for C1 (amended) at the concrete test entry `exEntryA` with
base time `5`. -/
theorem c1_timestamp_amended_witness :
    ((s4_normalize (some 5) exEntryA).2.map PositionRow.timestamp) =
      some (s4_timestamp (some 5) (some 1)) ∧
    ((s1_normalize exEntryA).2.map PositionRow.timestamp) = some (some 1) ∧
    s4_timestamp (some 5) (some 1) = some ((5 : Rat) - 1) :=
  ⟨(c1_timestamp_amended exEntryA (some 5) "06a0af" 41 2 rfl (by decide) rfl rfl).1,
   (c1_timestamp_amended exEntryA (some 5) "06a0af" 41 2 rfl (by decide) rfl rfl).2.1,
   (c1_timestamp_amended exEntryA (some 5) "06a0af" 41 2 rfl (by decide) rfl rfl).2.2.1
     5 1 (by decide)⟩

/-- C3 (counterexample): the claim fails on the s1 variant.  Preparing
the test snapshot stores the on-ground entry's `alt_baro` as the raw
string `"ground"`, not as `0`. -/
theorem c3_counterexample :
    ((s1_prepare_data [exFile] none).map
        (fun db => db.positions.map (fun r => r.alt_baro))) =
      some [some (JVal.num 3200), some (JVal.str "ground")] ∧
    JVal.str "ground" ≠ JVal.num 0 := by
  constructor
  · rfl
  · intro h
    cases h

/-- C3 as amended: in the s4 variant `alt_baro` is normalized by
`s4_alt_norm` — numbers pass through unchanged, the string `"ground"`
maps to `0`, every other string maps to null, and null stays null; in
the s1 variant the raw `alt_baro` value is stored unchanged (the string
`"ground"` is stored as a string). -/
theorem c3_altitude_amended (e : Entry) (bt : Option Rat) (ic : String)
    (la lo : Rat) (hhex : e.hex = some ic) (hne : ic ≠ "")
    (hla : e.lat = some la) (hlo : e.lon = some lo) :
    ((s4_normalize bt e).2.map (fun r => r.alt_baro)) =
      some (s4_alt_norm e.alt_baro) ∧
    ((s1_normalize e).2.map (fun r => r.alt_baro)) = some e.alt_baro ∧
    (∀ q : Rat, s4_alt_norm (some (JVal.num q)) = some (JVal.num q)) ∧
    s4_alt_norm (some (JVal.str "ground")) = some (JVal.num 0) ∧
    (∀ tv : String, tv ≠ "ground" → s4_alt_norm (some (JVal.str tv)) = none) ∧
    s4_alt_norm none = none := by
  have hie : ic.isEmpty = false := by
    rw [Bool.eq_false_iff]
    intro h
    exact hne ((String.isEmpty_iff ic).mp h)
  refine ⟨?_, ?_, ?_, ?_, ?_, ?_⟩
  · simp [s4_normalize, pyTruthyStr, hhex, hie, hla, hlo]
  · simp [s1_normalize, pyTruthyStr, hhex, hie, hla, hlo]
  · intro q
    rfl
  · rfl
  · intro tv htv
    simp [s4_alt_norm, htv]
  · rfl

/-- Witness for C3 (amended) at the concrete on-ground test entry
`exEntryB`. -/
theorem c3_altitude_amended_witness :
    ((s4_normalize (some 5) exEntryB).2.map (fun r => r.alt_baro)) =
      some (s4_alt_norm (some (JVal.str "ground"))) ∧
    ((s1_normalize exEntryB).2.map (fun r => r.alt_baro)) =
      some (some (JVal.str "ground")) ∧
    s4_alt_norm (some (JVal.str "canopy")) = none :=
  ⟨(c3_altitude_amended exEntryB (some 5) "aabbcc" 40 3 rfl (by decide) rfl rfl).1,
   (c3_altitude_amended exEntryB (some 5) "aabbcc" 40 3 rfl (by decide) rfl rfl).2.1,
   (c3_altitude_amended exEntryB (some 5) "aabbcc" 40 3 rfl (by decide) rfl rfl).2.2.2.2.1
     "canopy" (by decide)⟩

/-- `getLast?` skips past the head when the tail is non-empty. -/
theorem getLast?_cons_of_ne_nil {α : Type} (a : α) (l : List α) (h : l ≠ []) :
    (a :: l).getLast? = l.getLast? := by
  cases l with
  | nil => exact absurd rfl h
  | cons b bs => simp [List.getLast?_cons_cons]

/-- The rows surviving `drop_duplicates(subset="icao", keep="last")` with
a given `icao` are exactly the last input row with that `icao`. -/
theorem dropDupLast_filter (ic : String) (rows : List AircraftRow) :
    (dropDupLast rows).filter (fun r => r.icao = ic) =
      ((rows.filter (fun r => r.icao = ic)).getLast?).toList := by
  induction rows with
  | nil => rfl
  | cons x xs ih =>
    by_cases hx : x.icao = ic
    · have hfx : (x :: xs).filter (fun r => r.icao = ic)
          = x :: xs.filter (fun r => r.icao = ic) :=
        List.filter_cons_of_pos (by simp [hx])
      rcases hdup : xs.any (fun y => y.icao = x.icao) with _ | _
      · -- x is kept: no later row shares its icao, so x is the only match
        have hnil : xs.filter (fun r => r.icao = ic) = [] := by
          rw [List.filter_eq_nil_iff]
          intro y hy hpy
          have hany : xs.any (fun y => y.icao = x.icao) = true := by
            rw [List.any_eq_true]
            exact ⟨y, hy, by simp [of_decide_eq_true hpy, hx]⟩
          rw [hdup] at hany
          cases hany
        have hkeep : dropDupLast (x :: xs) = x :: dropDupLast xs := by
          simp only [dropDupLast, hdup]
          rfl
        rw [hkeep, List.filter_cons_of_pos (by simp [hx]), ih, hfx, hnil]
        rfl
      · -- x is dropped: a later row with the same icao exists
        have hne : xs.filter (fun r => r.icao = ic) ≠ [] := by
          rw [List.any_eq_true] at hdup
          obtain ⟨y, hy, hpy⟩ := hdup
          intro hnil
          rw [List.filter_eq_nil_iff] at hnil
          exact hnil y hy (by simp [of_decide_eq_true hpy, hx])
        have hdrop : dropDupLast (x :: xs) = dropDupLast xs := by
          simp only [dropDupLast, hdup]
          rfl
        rw [hdrop, ih, hfx, getLast?_cons_of_ne_nil x _ hne]
    · have hfx : (x :: xs).filter (fun r => r.icao = ic)
          = xs.filter (fun r => r.icao = ic) :=
        List.filter_cons_of_neg (by simp [hx])
      rcases hdup : xs.any (fun y => y.icao = x.icao) with _ | _
      · have hkeep : dropDupLast (x :: xs) = x :: dropDupLast xs := by
          simp only [dropDupLast, hdup]
          rfl
        rw [hkeep, List.filter_cons_of_neg (by simp [hx]), ih, hfx]
      · have hdrop : dropDupLast (x :: xs) = dropDupLast xs := by
          simp only [dropDupLast, hdup]
          rfl
        rw [hdrop, ih, hfx]

/-- C7: metadata deduplication is last-write-wins per `icao`.  For every
collected row list and every `icao`, the deduplicated table restricted to
that `icao` is exactly the last collected row with that `icao` (the
entire record, no field-level merge), and in particular holds at most one
row per `icao`. -/
theorem c7_metadata_dedup_last (rows : List AircraftRow) (ic : String) :
    (dropDupLast rows).filter (fun r => r.icao = ic) =
      ((rows.filter (fun r => r.icao = ic)).getLast?).toList ∧
    ((dropDupLast rows).filter (fun r => r.icao = ic)).length ≤ 1 := by
  refine ⟨dropDupLast_filter ic rows, ?_⟩
  rw [dropDupLast_filter ic rows]
  cases (rows.filter (fun r => r.icao = ic)).getLast? with
  | none => exact Nat.zero_le 1
  | some a => exact Nat.le_refl 1

/-- C8: on the empty store (no `aircraft.db` file yet, i.e. before any
ingestion), every read endpoint of the s1 variant succeeds with its
empty/default shape: both list endpoints return `[]` for every input
(any `icao` included) and the statistics endpoint returns exactly
`{max_altitude_baro: null, max_ground_speed: null, had_emergency: false}`. -/
theorem c8_empty_store_queries (num_results page : Nat) (ic : String) :
    list_aircraft none num_results page = [] ∧
    get_aircraft_position none ic num_results page = [] ∧
    get_aircraft_statistics none ic =
      { max_altitude_baro := SVal.null, max_ground_speed := SVal.null,
        had_emergency := false } :=
  ⟨rfl, rfl, rfl⟩

/-- C9: `prepare_data` is idempotent as a store transformer.  Both
variants wipe the prepared directory and rebuild the database purely
from the input files, so the resulting store ignores the prior store
entirely: a second identical run leaves the store exactly as the first
did, for any prior contents, and hence every query result agrees across
the two runs. -/
theorem c9_prepare_idempotent (files : List RawFile)
    (prior prior2 : Option DB) :
    s1_prepare_data files (s1_prepare_data files prior) =
      s1_prepare_data files prior ∧
    s4_prepare_data files (s4_prepare_data files prior) =
      s4_prepare_data files prior ∧
    s1_prepare_data files prior = s1_prepare_data files prior2 ∧
    s4_prepare_data files prior = s4_prepare_data files prior2 ∧
    (∀ (ic : String) (n p : Nat),
      list_aircraft (s1_prepare_data files (s1_prepare_data files prior)) n p =
        list_aircraft (s1_prepare_data files prior) n p ∧
      get_aircraft_position
          (s1_prepare_data files (s1_prepare_data files prior)) ic n p =
        get_aircraft_position (s1_prepare_data files prior) ic n p ∧
      get_aircraft_statistics
          (s1_prepare_data files (s1_prepare_data files prior)) ic =
        get_aircraft_statistics (s1_prepare_data files prior) ic) :=
  ⟨rfl, rfl, rfl, rfl, fun _ _ _ => ⟨rfl, rfl, rfl⟩⟩

/-- A file whose two decode attempts both fail aborts the whole prepare
loop, wherever it sits in the processing order. -/
theorem prepLoop_error (procFile : Decoded → List AircraftRow × List PositionRow)
    (pre : List RawFile) (f : RawFile) (post : List RawFile)
    (hf : parseFile f = Except.error ()) :
    ∀ acc, prepLoop procFile (pre ++ f :: post) acc = Except.error () := by
  induction pre with
  | nil =>
      intro acc
      simp only [List.nil_append, prepLoop, hf]
  | cons g rest ih =>
      intro acc
      simp only [List.cons_append, prepLoop]
      cases hg : parseFile g with
      | error e => cases e; rfl
      | ok d =>
          dsimp only
          cases hd : d.aircraft with
          | none => exact ih acc
          | some entries =>
              exact ih (acc.1 ++ (procFile d).1, acc.2 ++ (procFile d).2)

/-- A file that decodes to a structure without an `"aircraft"` key is
skipped: the prepare loop behaves as if the file were absent. -/
theorem prepLoop_skip (procFile : Decoded → List AircraftRow × List PositionRow)
    (pre : List RawFile) (f : RawFile) (post : List RawFile) (d : Decoded)
    (hf : parseFile f = Except.ok d) (hd : d.aircraft = none) :
    ∀ acc, prepLoop procFile (pre ++ f :: post) acc =
      prepLoop procFile (pre ++ post) acc := by
  induction pre with
  | nil =>
      intro acc
      simp only [List.nil_append, prepLoop, hf, hd]
  | cons g rest ih =>
      intro acc
      simp only [List.cons_append, prepLoop]
      cases hg : parseFile g with
      | error e => rfl
      | ok d2 =>
          dsimp only
          cases hd2 : d2.aircraft with
          | none => exact ih acc
          | some entries =>
              exact ih (acc.1 ++ (procFile d2).1, acc.2 ++ (procFile d2).2)

/-- C4 (counterexample): the claim fails on the code.  A file whose
bytes are neither valid gzip JSON nor valid plain JSON aborts the whole
run in both variants (s1's plain-JSON fallback is outside the `try`; s4
re-raises from its `except Exception` handler), instead of being skipped:
with the bad file in front of the good test snapshot the run errors,
whereas the same run without the bad file succeeds with the snapshot's
records. -/
theorem c4_counterexample :
    s1_run [RawFile.plain none, exFile] = Except.error () ∧
    s4_run [RawFile.plain none, exFile] = Except.error () ∧
    s1_run [exFile] =
      Except.ok
        ([{ icao := "06a0af", registration := some "EC-MTI", typ := some "A320" },
          { icao := "aabbcc", registration := some "N12345", typ := some "B737" }],
         [{ icao := "06a0af", timestamp := some 1, lat := 41, lon := 2,
            alt_baro := some (JVal.num 3200), gs := some 180, emergency := none },
          { icao := "aabbcc", timestamp := some 1, lat := 40, lon := 3,
            alt_baro := some (JVal.str "ground"), gs := some 0,
            emergency := some "none" }]) :=
  ⟨rfl, rfl, rfl⟩

/-- C4 as amended: a per-file failure is only tolerated at the
structural-validation step — a file that decodes to a structure without
an `"aircraft"` key contributes zero records and the run continues —
whereas a file whose bytes are undecodable (neither valid gzip JSON nor
valid plain JSON) raises and aborts the whole run in both variants. -/
theorem c4_parse_errors_amended (pre post : List RawFile) (f : RawFile)
    (d : Decoded) :
    (parseFile f = Except.error () →
      s1_run (pre ++ f :: post) = Except.error () ∧
      s4_run (pre ++ f :: post) = Except.error ()) ∧
    (parseFile f = Except.ok d → d.aircraft = none →
      s1_run (pre ++ f :: post) = s1_run (pre ++ post) ∧
      s4_run (pre ++ f :: post) = s4_run (pre ++ post)) := by
  constructor
  · intro hf
    exact ⟨prepLoop_error s1_procFile pre f post hf ([], []),
           prepLoop_error s4_procFile pre f post hf ([], [])⟩
  · intro hf hd
    exact ⟨prepLoop_skip s1_procFile pre f post d hf hd ([], []),
           prepLoop_skip s4_procFile pre f post d hf hd ([], [])⟩

/-- Witness for C4 (amended): an undecodable file placed after the good
test snapshot aborts both runs, and a decoded-but-aircraftless file in
the same position is skipped. -/
theorem c4_parse_errors_amended_witness :
    (s1_run [exFile, RawFile.plain none] = Except.error () ∧
     s4_run [exFile, RawFile.plain none] = Except.error ()) ∧
    (s1_run [exFile, RawFile.gz (some { now := some 3, aircraft := none })] =
       s1_run [exFile] ∧
     s4_run [exFile, RawFile.gz (some { now := some 3, aircraft := none })] =
       s4_run [exFile]) :=
  ⟨(c4_parse_errors_amended [exFile] [] (RawFile.plain none)
      { now := some 3, aircraft := none }).1 rfl,
   (c4_parse_errors_amended [exFile] []
      (RawFile.gz (some { now := some 3, aircraft := none }))
      { now := some 3, aircraft := none }).2 rfl rfl⟩

/-- The names stored by the s1 download are an (order-preserving)
sublist of the generated name list. -/
theorem s1_download_fst_sublist {α : Type} (resp : String → Option α) :
    ∀ l : List String,
      ((l.filterMap (fun fn => (resp fn).map (fun c => (fn, c)))).map
        Prod.fst).Sublist l := by
  intro l
  induction l with
  | nil => exact List.Sublist.refl []
  | cons fn rest ih =>
      cases hr : resp fn with
      | none => simp only [List.filterMap_cons, hr, Option.map_none']; exact ih.cons fn
      | some c =>
          simp only [List.filterMap_cons, hr, Option.map_some', List.map_cons]
          exact ih.cons₂ fn

/-- The names stored by the s4 download loop are an (order-preserving)
sublist of the names it is given. -/
theorem s4_go_fst_sublist {α : Type} (file_limit : Int)
    (resp : String → Option α) :
    ∀ (l : List String) (count : Int),
      ((s4_go file_limit resp l count).map Prod.fst).Sublist l := by
  intro l
  induction l with
  | nil => intro count; exact List.Sublist.refl []
  | cons fn rest ih =>
      intro count
      by_cases hc : file_limit ≤ count
      · simp only [s4_go, if_pos hc, List.map_nil]
        exact List.nil_sublist _
      · simp only [s4_go, if_neg hc]
        cases hr : resp fn with
        | none => exact (ih count).cons fn
        | some c => exact (ih (count + 1)).cons₂ fn

/-- The s4 download loop stores at most `(file_limit - count)` files. -/
theorem s4_go_length_le {α : Type} (file_limit : Int)
    (resp : String → Option α) :
    ∀ (l : List String) (count : Int),
      (s4_go file_limit resp l count).length ≤ (file_limit - count).toNat := by
  intro l
  induction l with
  | nil => intro count; exact Nat.zero_le _
  | cons fn rest ih =>
      intro count
      by_cases hc : file_limit ≤ count
      · simp only [s4_go, if_pos hc, List.length_nil]
        exact Nat.zero_le _
      · simp only [s4_go, if_neg hc]
        cases hr : resp fn with
        | none =>
            calc (s4_go file_limit resp rest count).length
                ≤ (file_limit - count).toNat := ih count
        | some c =>
            have h1 := ih (count + 1)
            simp only [List.length_cons]
            omega

/-- C5 (counterexample): the claim fails on the s1 variant, whose
`download_data` accepts `file_limit` but never reads it: with
`file_limit = 1` and every hourly request succeeding, all 24 files are
stored. -/
theorem c5_counterexample :
    (s1_download_data 1 (fun _ => some 0) : List (String × Nat)).length = 24 ∧
    ¬ (24 ≤ 1) := by
  constructor
  · rfl
  · omega

/-- C5 as amended: both download endpoints try the deterministic names
`{HH}0000Z.json.gz`, one per hour `00`-`23` of the fixed day, in
ascending order (the stored names are always an order-preserving sublist
of that 24-name list).  The s4 variant stores at most `file_limit` files;
the s1 variant ignores `file_limit` and stores every successfully
fetched file. -/
theorem c5_download_amended {α : Type} (file_limit : Int)
    (resp : String → Option α) :
    ((s4_download_data file_limit resp).map Prod.fst).Sublist filenames ∧
    (s4_download_data file_limit resp).length ≤ file_limit.toNat ∧
    ((s1_download_data file_limit resp).map Prod.fst).Sublist filenames ∧
    (∀ fn ∈ filenames, resp fn ≠ none →
      fn ∈ (s1_download_data file_limit resp).map Prod.fst) ∧
    filenames.length = 24 ∧
    List.Pairwise (fun a b => strLe a b = true ∧ a ≠ b) filenames := by
  refine ⟨s4_go_fst_sublist file_limit resp filenames 0, ?_, 
    s1_download_fst_sublist resp filenames, ?_, rfl, ?_⟩
  · have h := s4_go_length_le file_limit resp filenames 0
    simpa [s4_download_data] using h
  · intro fn hmem hresp
    cases hr : resp fn with
    | none => exact absurd hr hresp
    | some c =>
        rw [List.mem_map]
        refine ⟨(fn, c), ?_, rfl⟩
        rw [s1_download_data, List.mem_filterMap]
        exact ⟨fn, hmem, by rw [hr]; rfl⟩
  · decide

/-- Witness for C5 (amended) with `file_limit = 1` and every request
succeeding: the s4 store is capped at one file while the s1 store still
contains the first hourly file (and in fact all 24). -/
theorem c5_download_amended_witness :
    ((s4_download_data 1 (fun _ => some 0) : List (String × Nat)).length ≤
      (1 : Int).toNat) ∧
    "000000Z.json.gz" ∈
      (s1_download_data 1 (fun _ => some (0 : Nat))).map Prod.fst :=
  ⟨(c5_download_amended 1 (fun _ => some (0 : Nat))).2.1,
   (c5_download_amended 1 (fun _ => some (0 : Nat))).2.2.2.1 "000000Z.json.gz"
     (by decide) (by simp)⟩

/-- `charListLe` is reflexive. -/
theorem charListLe_refl : ∀ as : List Char, charListLe as as = true := by
  intro as
  induction as with
  | nil => rfl
  | cons a as ih => simp [charListLe, ih]

/-- `charListLe` is total. -/
theorem charListLe_total : ∀ as bs : List Char,
    charListLe as bs = true ∨ charListLe bs as = true := by
  intro as
  induction as with
  | nil => intro bs; left; rfl
  | cons a as ih =>
      intro bs
      cases bs with
      | nil => right; rfl
      | cons b bs =>
          by_cases hab : a = b
          · subst hab
            rcases ih bs with h | h
            · left; simp [charListLe, h]
            · right; simp [charListLe, h]
          · rcases lt_or_gt_of_ne hab with h | h
            · left; simp [charListLe, hab, h]
            · right
              have hba : ¬ b = a := fun hba => hab hba.symm
              simp [charListLe, hba, h]

/-- `charListLe` is transitive. -/
theorem charListLe_trans : ∀ as bs cs : List Char,
    charListLe as bs = true → charListLe bs cs = true →
    charListLe as cs = true := by
  intro as
  induction as with
  | nil => intro bs cs h1 h2; rfl
  | cons a as ih =>
      intro bs cs h1 h2
      cases bs with
      | nil => simp [charListLe] at h1
      | cons b bs =>
          cases cs with
          | nil => simp [charListLe] at h2
          | cons c cs =>
              by_cases hab : a = b
              · subst hab
                by_cases hac : a = c
                · subst hac
                  simp [charListLe] at h1 h2 ⊢
                  exact ih bs cs h1 h2
                · simp [charListLe, hac] at h2 ⊢
                  exact h2
              · by_cases hbc : b = c
                · subst hbc
                  simp [charListLe, hab] at h1 ⊢
                  exact h1
                · simp [charListLe, hab] at h1
                  simp [charListLe, hbc] at h2
                  have hac : a < c := lt_trans h1 h2
                  have hne : ¬ a = c := ne_of_lt hac
                  simp [charListLe, hne, hac]

/-- `svalLe` is reflexive. -/
theorem svalLe_refl : ∀ v : SVal, svalLe v v = true := by
  intro v
  cases v with
  | null => rfl
  | num q => simp [svalLe]
  | text s => simp [svalLe, strLe, charListLe_refl]

/-- `svalLe` is total. -/
theorem svalLe_total : ∀ a b : SVal,
    svalLe a b = true ∨ svalLe b a = true := by
  intro a b
  cases a <;> cases b <;> simp [svalLe, strLe]
  · exact le_total _ _
  · exact charListLe_total _ _

/-- `svalLe` is transitive. -/
theorem svalLe_trans : ∀ a b c : SVal,
    svalLe a b = true → svalLe b c = true → svalLe a c = true := by
  intro a b c h1 h2
  cases a <;> cases b <;> cases c <;>
    simp_all [svalLe, strLe]
  · exact le_trans h1 h2
  · exact charListLe_trans _ _ _ h1 h2

/-- `MAX` with a `NULL` second operand keeps the first. -/
theorem svalMax2_null_right : ∀ a : SVal, svalMax2 a SVal.null = a := by
  intro a
  cases a <;> rfl

/-- `MAX` with a `NULL` first operand keeps the second. -/
theorem svalMax2_null_left : ∀ b : SVal, svalMax2 SVal.null b = b := by
  intro b
  cases b <;> rfl

/-- On two non-`NULL` operands, `MAX` picks the larger under `svalLe`. -/
theorem svalMax2_eq_ite : ∀ a b : SVal, a ≠ SVal.null → b ≠ SVal.null →
    svalMax2 a b = if svalLe a b then b else a := by
  intro a b ha hb
  cases a <;> cases b <;> simp_all [svalMax2]

/-- Correctness of the `MAX` aggregate model: over any column it returns
`NULL` exactly when every value is `NULL`, and otherwise returns one of
the column's values, non-`NULL` and `svalLe`-above every value. -/
theorem sqliteMax_spec (l : List SVal) :
    (sqliteMax l = SVal.null ∧ ∀ v ∈ l, v = SVal.null) ∨
    (sqliteMax l ∈ l ∧ sqliteMax l ≠ SVal.null ∧
      ∀ v ∈ l, svalLe v (sqliteMax l) = true) := by
  induction l with
  | nil => exact Or.inl ⟨rfl, by simp⟩
  | cons v rest ih =>
      have hunfold : sqliteMax (v :: rest) = svalMax2 v (sqliteMax rest) := rfl
      rcases ih with ⟨hm, hall⟩ | ⟨hmem, hnn, hbound⟩
      · have hv2 : sqliteMax (v :: rest) = v := by
          rw [hunfold, hm, svalMax2_null_right]
        by_cases hvn : v = SVal.null
        · left
          refine ⟨by rw [hv2, hvn], ?_⟩
          intro w hw
          rcases List.mem_cons.mp hw with h | h
          · rw [h, hvn]
          · exact hall w h
        · right
          refine ⟨by rw [hv2]; exact List.mem_cons_self v rest,
            by rw [hv2]; exact hvn, ?_⟩
          intro w hw
          rcases List.mem_cons.mp hw with h | h
          · rw [h, hv2]; exact svalLe_refl v
          · rw [hv2, hall w h]; rfl
      · by_cases hvn : v = SVal.null
        · have hv2 : sqliteMax (v :: rest) = sqliteMax rest := by
            rw [hunfold, hvn, svalMax2_null_left]
          right
          refine ⟨by rw [hv2]; exact List.mem_cons_of_mem v hmem,
            by rw [hv2]; exact hnn, ?_⟩
          intro w hw
          rcases List.mem_cons.mp hw with h | h
          · rw [h, hv2, hvn]; rfl
          · rw [hv2]; exact hbound w h
        · rw [hunfold, svalMax2_eq_ite v (sqliteMax rest) hvn hnn]
          by_cases hle : svalLe v (sqliteMax rest) = true
          · rw [if_pos hle]
            right
            refine ⟨List.mem_cons_of_mem v hmem, hnn, ?_⟩
            intro w hw
            rcases List.mem_cons.mp hw with h | h
            · rw [h]; exact hle
            · exact hbound w h
          · rw [if_neg hle]
            right
            refine ⟨List.mem_cons_self v rest, hvn, ?_⟩
            intro w hw
            rcases List.mem_cons.mp hw with h | h
            · rw [h]; exact svalLe_refl v
            · have hmv : svalLe (sqliteMax rest) v = true := by
                rcases svalLe_total v (sqliteMax rest) with h2 | h2
                · exact absurd h2 hle
                · exact h2
              exact svalLe_trans w (sqliteMax rest) v (hbound w h) hmv

/-- The `CASE WHEN emergency THEN 1 ELSE 0 END` column aggregates to `1`
iff some row is truthy, to `NULL` iff there is no row, and to `0`
otherwise. -/
theorem sqliteMax_case_col : ∀ l : List Bool,
    sqliteMax (l.map (fun b => SVal.num (if b then 1 else 0))) =
      (if l.any id then SVal.num 1
       else if l.isEmpty then SVal.null else SVal.num 0) := by
  intro l
  induction l with
  | nil => rfl
  | cons b rest ih =>
      have hunfold : sqliteMax ((b :: rest).map (fun b => SVal.num (if b then 1 else 0))) =
          svalMax2 (SVal.num (if b then 1 else 0))
            (sqliteMax (rest.map (fun b => SVal.num (if b then 1 else 0)))) := rfl
      rw [hunfold, ih]
      cases b <;> rcases hany : rest.any id with _ | _ <;>
        rcases hemp : rest.isEmpty with _ | _ <;>
        simp [hany, hemp, svalMax2, svalLe] <;> norm_num

/-- `any` over a mapped list with the identity predicate. -/
theorem any_map_id {α : Type} (f : α → Bool) :
    ∀ l : List α, (l.map f).any id = l.any f := by
  intro l
  induction l with
  | nil => rfl
  | cons x xs ih => simp only [List.map_cons, List.any_cons, ih, id]

/-- `map` preserves emptiness. -/
theorem isEmpty_map_eq {α β : Type} (f : α → β) :
    ∀ l : List α, (l.map f).isEmpty = l.isEmpty := by
  intro l
  cases l <;> rfl

/-- The statistics endpoint's `had_emergency` equals "some stored
position of this `icao` has an SQLite-truthy emergency value". -/
theorem had_emergency_eq_any (db : DB) (ic : String) :
    (get_aircraft_statistics (some db) ic).had_emergency =
      (db.positions.filter (fun r => r.icao = ic)).any
        (fun r => svalTruthy (emergencyColumn r.emergency)) := by
  have h1 : (get_aircraft_statistics (some db) ic).had_emergency =
      pyBoolSval (sqliteMax ((db.positions.filter (fun r => r.icao = ic)).map
        (fun r => SVal.num
          (if svalTruthy (emergencyColumn r.emergency) then 1 else 0)))) := rfl
  have h2 : (db.positions.filter (fun r => r.icao = ic)).map
      (fun r => SVal.num (if svalTruthy (emergencyColumn r.emergency) then 1 else 0)) =
      ((db.positions.filter (fun r => r.icao = ic)).map
        (fun r => svalTruthy (emergencyColumn r.emergency))).map
        (fun b => SVal.num (if b then 1 else 0)) := by
    rw [List.map_map]
    rfl
  rw [h1, h2, sqliteMax_case_col, any_map_id, isEmpty_map_eq]
  rcases hany : (db.positions.filter (fun r => r.icao = ic)).any
      (fun r => svalTruthy (emergencyColumn r.emergency)) with _ | _
  · rw [hany]
    rcases hemp : (db.positions.filter (fun r => r.icao = ic)).isEmpty
        with _ | _ <;> rw [hemp] <;> rfl
  · rw [hany]
    rfl

/-- C2 (counterexample): the claim fails on the code.  After preparing
the test snapshot, the `"aabbcc"` aircraft has a stored position whose
emergency indicator is the non-null string `"none"`, yet the statistics
endpoint reports `had_emergency = false`: SQLite's
`CASE WHEN emergency THEN` coerces the text `"none"` to the number `0`,
so a non-null indicator does not count unless its numeric prefix is
non-zero. -/
theorem c2_counterexample :
    (get_aircraft_statistics (s1_prepare_data [exFile] none) "aabbcc").had_emergency
      = false ∧
    ((s1_prepare_data [exFile] none).map (fun db =>
      (db.positions.filter (fun r => r.icao = "aabbcc")).any
        (fun r => r.emergency ≠ none))) = some true := by
  exact ⟨rfl, rfl⟩

/-- C2 as amended: `max_altitude_baro` and `max_ground_speed` are the
greatest non-null stored column values under SQLite's cross-type value
ordering (null when every value is null or no row exists), and
`had_emergency` is true iff at least one stored position for the `icao`
has an emergency value that is truthy under SQLite boolean coercion —
a non-null string without a non-zero numeric prefix (such as `"none"`)
does not count. -/
theorem c2_stats_amended (db : DB) (ic : String) :
    ((get_aircraft_statistics (some db) ic).had_emergency = true ↔
      ∃ r ∈ db.positions.filter (fun r => r.icao = ic),
        svalTruthy (emergencyColumn r.emergency) = true) ∧
    (((get_aircraft_statistics (some db) ic).max_altitude_baro = SVal.null ∧
        ∀ v ∈ (db.positions.filter (fun r => r.icao = ic)).map
          (fun r => altColumn r.alt_baro), v = SVal.null) ∨
      ((get_aircraft_statistics (some db) ic).max_altitude_baro ∈
          (db.positions.filter (fun r => r.icao = ic)).map
            (fun r => altColumn r.alt_baro) ∧
        (get_aircraft_statistics (some db) ic).max_altitude_baro ≠ SVal.null ∧
        ∀ v ∈ (db.positions.filter (fun r => r.icao = ic)).map
          (fun r => altColumn r.alt_baro),
          svalLe v ((get_aircraft_statistics (some db) ic).max_altitude_baro)
            = true)) ∧
    (((get_aircraft_statistics (some db) ic).max_ground_speed = SVal.null ∧
        ∀ v ∈ (db.positions.filter (fun r => r.icao = ic)).map
          (fun r => numColumn r.gs), v = SVal.null) ∨
      ((get_aircraft_statistics (some db) ic).max_ground_speed ∈
          (db.positions.filter (fun r => r.icao = ic)).map
            (fun r => numColumn r.gs) ∧
        (get_aircraft_statistics (some db) ic).max_ground_speed ≠ SVal.null ∧
        ∀ v ∈ (db.positions.filter (fun r => r.icao = ic)).map
          (fun r => numColumn r.gs),
          svalLe v ((get_aircraft_statistics (some db) ic).max_ground_speed)
            = true)) := by
  refine ⟨?_, ?_, ?_⟩
  · rw [had_emergency_eq_any]
    simp only [List.any_eq_true, List.mem_filter, decide_eq_true_eq, and_assoc]
  · have halt : (get_aircraft_statistics (some db) ic).max_altitude_baro =
        sqliteMax ((db.positions.filter (fun r => r.icao = ic)).map
          (fun r => altColumn r.alt_baro)) := rfl
    rw [halt]
    exact sqliteMax_spec _
  · have hgs : (get_aircraft_statistics (some db) ic).max_ground_speed =
        sqliteMax ((db.positions.filter (fun r => r.icao = ic)).map
          (fun r => numColumn r.gs)) := rfl
    rw [hgs]
    exact sqliteMax_spec _

/-- A one-position store used as a concrete instance for the statistics
endpoint: emergency `"none"`, altitude `3200`, ground speed `0`. -/
def exDb : DB :=
  { aircraft := [],
    positions := [{ icao := "aabbcc", timestamp := some 1, lat := 40, lon := 3,
                    alt_baro := some (JVal.num 3200), gs := some 0,
                    emergency := some "none" }] }

/-- Witness for C2 (amended) at the concrete store `exDb`. -/
theorem c2_stats_amended_witness :
    ((get_aircraft_statistics (some exDb) "aabbcc").had_emergency = true ↔
      ∃ r ∈ exDb.positions.filter (fun r => r.icao = "aabbcc"),
        svalTruthy (emergencyColumn r.emergency) = true) ∧
    (((get_aircraft_statistics (some exDb) "aabbcc").max_altitude_baro = SVal.null ∧
        ∀ v ∈ (exDb.positions.filter (fun r => r.icao = "aabbcc")).map
          (fun r => altColumn r.alt_baro), v = SVal.null) ∨
      ((get_aircraft_statistics (some exDb) "aabbcc").max_altitude_baro ∈
          (exDb.positions.filter (fun r => r.icao = "aabbcc")).map
            (fun r => altColumn r.alt_baro) ∧
        (get_aircraft_statistics (some exDb) "aabbcc").max_altitude_baro ≠ SVal.null ∧
        ∀ v ∈ (exDb.positions.filter (fun r => r.icao = "aabbcc")).map
          (fun r => altColumn r.alt_baro),
          svalLe v ((get_aircraft_statistics (some exDb) "aabbcc").max_altitude_baro)
            = true)) ∧
    (((get_aircraft_statistics (some exDb) "aabbcc").max_ground_speed = SVal.null ∧
        ∀ v ∈ (exDb.positions.filter (fun r => r.icao = "aabbcc")).map
          (fun r => numColumn r.gs), v = SVal.null) ∨
      ((get_aircraft_statistics (some exDb) "aabbcc").max_ground_speed ∈
          (exDb.positions.filter (fun r => r.icao = "aabbcc")).map
            (fun r => numColumn r.gs) ∧
        (get_aircraft_statistics (some exDb) "aabbcc").max_ground_speed ≠ SVal.null ∧
        ∀ v ∈ (exDb.positions.filter (fun r => r.icao = "aabbcc")).map
          (fun r => numColumn r.gs),
          svalLe v ((get_aircraft_statistics (some exDb) "aabbcc").max_ground_speed)
            = true)) :=
  c2_stats_amended exDb "aabbcc"
